import Mathlib

/-
  Verification development for the PCBOT command-dispatch core.

  The definitions below are a shallow embedding of the Python sources:
    - bot.py             : parse_annotation (here parseAnno), parse_command_args,
                           get_sub_command, parse_command, on_message, log_message,
                           on_plugin_message
    - plugins/__init__.py: the `command` decorator (here register_command), the
                           docstring reformatting, load_plugin, unload_plugin

  Machine-level conventions of the embedding:
    - Python `None` is `Option.none`; a raised exception is `Except.error`.
    - The outcome of calling a Python coercion function on a token string is
      modelled by `PyCallResult` (returned a value / returned None / raised
      TypeError / raised some other exception), because parse_annotation treats
      the TypeError case differently from every other exception.
    - The enum-valued annotations (Annotate.Content etc.) live in pcbot/utils,
      which is not part of the sources; they extract text from the message and
      never take the try/except path, so the claims below quantify over the
      coercion-function annotations (`PAnno.custom`); an UNANNOTATED parameter
      raises, because inspect.Parameter.empty is a truthy marker class.
    - Values produced by coercions are represented as strings; the binder never
      inspects a bound value, only whether it is None, so this loses nothing.
    - Python's `index` counter can reach -1, so it is an `Int` here.
-/

-- Outcome of calling a Python function (a coercion annotation) on one token.
inductive PyCallResult where
  | ret (v : Option String)  -- the call returned; `none` models Python None
  | raiseTypeError           -- the call raised TypeError
  | raiseOther               -- the call raised any other exception
deriving Repr

-- A parameter's annotation, as dispatched on by parse_annotation in bot.py.
-- clientAnno / messageAnno stand for the discord.Client / discord.Message
-- class annotations required on the two infrastructure parameters.
inductive PAnno where
  | clientAnno
  | messageAnno
  | noAnno                          -- no annotation: inspect.Parameter.empty,
                                    -- the _empty marker class, which is TRUTHY
  | noneAnno                        -- a falsy annotation object (e.g. an
                                    -- explicit `None` annotation)
  | custom (f : String → PyCallResult)  -- arbitrary coercion function

-- The inspect.Parameter kinds that parse_command_args dispatches on.
inductive ParamKind where
  | positionalOrKeyword
  | keywordOnly
  | varPositional
deriving DecidableEq, Repr

-- One entry of inspect.signature(command.function).parameters.
structure Param where
  name : String
  kind : ParamKind
  anno : PAnno
  default : Option String  -- `none` models inspect.Parameter.empty

-- The message raised by parse_annotation's `except TypeError` branch.
def annoTypeErrMsg : String :=
  "Command parameter annotation must be either pcbot.utils.Annotate or a function"

-- bot.py parse_annotation (lines 62-93), restricted to the annotation forms
-- above.  `Except.error` is a raised exception escaping parse_annotation;
-- `.ok none` is Python None ("no value"); `.ok (some v)` is a bound value.
-- The `index`/`message` arguments are only consumed by the Annotate enum
-- branches (absent here, see the header comment) and are therefore omitted.
-- `if param.annotation:` is TAKEN for an unannotated parameter, because
-- inspect.Parameter.empty is the _empty marker class and classes are truthy;
-- the Annotate identity checks then all fail and `anno(arg)` calls _empty,
-- which raises TypeError, re-raised by the `except TypeError` branch with
-- annoTypeErrMsg.  The same happens for a class annotation such as
-- discord.Client.  The final `return arg` (line 93) is reached only for a
-- parameter whose annotation object is falsy, e.g. an explicit `None`.
def parseAnno (anno : PAnno) (arg : String) : Except String (Option String) :=
  match anno with
  | .noAnno => .error annoTypeErrMsg   -- Parameter.empty is truthy; _empty(arg) raises TypeError
  | .noneAnno => .ok (some arg)        -- falsy annotation: `return arg` (line 93)
  | .clientAnno => .error annoTypeErrMsg
  | .messageAnno => .error annoTypeErrMsg
  | .custom f =>
    match f arg with
    | .ret v => .ok v             -- `return anno(arg)`
    | .raiseTypeError => .error annoTypeErrMsg
    | .raiseOther => .ok none     -- bare `except: return None`

-- Python slice l[a:-k] for a natural a: when k = 0 the slice is l[a:0],
-- which is empty (this is exactly the source's cmd_args[index - 1:-num_kwargs]
-- with num_kwargs possibly zero).
def pySliceNeg (l : List α) (a k : Nat) : List α :=
  if k = 0 then [] else (l.take (l.length - k)).drop a

-- Python string primitives, written over the character list so that they
-- compute by definitional unfolding.
-- str.startswith(p)
def pyStartsWith (s p : String) : Bool := p.data.isPrefixOf s.data

-- str.endswith(p)
def pyEndsWith (s p : String) : Bool := p.data.isSuffixOf s.data

-- str.strip(): remove leading and trailing whitespace
def pyStrip (s : String) : String :=
  ⟨((s.data.dropWhile Char.isWhitespace).reverse.dropWhile Char.isWhitespace).reverse⟩

-- str.split(sep) for a one-character separator
def pySplitChar (s : String) (sep : Char) : List String :=
  (s.data.splitOn sep).map (fun cs => ⟨cs⟩)

-- s[n:]
def pyDrop (s : String) (n : Nat) : String := ⟨s.data.drop n⟩

-- s[:-n] (for 0 < n ≤ len), i.e. drop the last n characters
def pyDropRight (s : String) (n : Nat) : String := ⟨s.data.take (s.data.length - n)⟩

-- The inner `for cmd_arg in cmd_args[index - 1:-num_kwargs]` loop of the
-- VAR_POSITIONAL branch: coerce each token, append the non-None results and
-- count them (num_pos_args); a raised exception aborts everything.
def consumeVar (anno : PAnno) (toks : List String) (args : List String)
    (cnt : Int) : Except String (List String × Int) :=
  match toks with
  | [] => .ok (args, cnt)
  | t :: ts =>
    match parseAnno anno t with
    | .error e => .error e
    | .ok (some v) => consumeVar anno ts (args ++ [v]) (cnt + 1)
    | .ok none => consumeVar anno ts args cnt

-- Result of the parameter loop of parse_command_args: either the loop ran to
-- its end / hit the no-token-no-default `break`, or the body executed one of
-- the `return args, kwargs, False` force-quit statements.
inductive LoopOut where
  | done (args : List String) (kwargs : List (String × String))
      (index : Int) (has_pos : Bool) (num_pos_args : Int)
  | forced (args : List String) (kwargs : List (String × String))

-- The `for arg, param in signature.parameters.items()` loop of
-- parse_command_args (bot.py lines 107-168).  `index0` is the value of the
-- Python `index` variable before the `index += 1` at the top of the iteration.
def bindLoop (cmd_args : List String) (params : List Param) (index0 : Int)
    (args : List String) (kwargs : List (String × String)) (num_kwargs : Nat)
    (has_pos : Bool) (num_pos_args : Int) : Except String LoopOut :=
  match params with
  | [] => .ok (.done args kwargs index0 has_pos num_pos_args)
  | p :: rest =>
    let index : Int := index0 + 1
    if index = 0 then
      -- first parameter must carry the discord.Client annotation
      match p.anno with
      | .clientAnno => bindLoop cmd_args rest index args kwargs num_kwargs has_pos num_pos_args
      | _ => .error "First command parameter must be of type discord.Client"
    else if index = 1 then
      -- second parameter must carry the discord.Message annotation
      match p.anno with
      | .messageAnno => bindLoop cmd_args rest index args kwargs num_kwargs has_pos num_pos_args
      | _ => .error "Second command parameter must be of type discord.Message"
    else
      if index ≤ (cmd_args.length : Int) then
        -- `cmd_arg = cmd_args[index - 1]`; in range because 1 ≤ index - 1 < length
        let cmd_arg := cmd_args.getD (index - 1).toNat ""
        match p.kind with
        | .positionalOrKeyword =>
          match parseAnno p.anno cmd_arg with
          | .error e => .error e
          | .ok (some v) =>
            bindLoop cmd_args rest index (args ++ [v]) kwargs num_kwargs has_pos num_pos_args
          | .ok none =>
            match p.default with
            | some d =>
              bindLoop cmd_args rest index (args ++ [d]) kwargs num_kwargs has_pos num_pos_args
            | none => .ok (.forced args kwargs)
        | .keywordOnly =>
          match parseAnno p.anno cmd_arg with
          | .error e => .error e
          | .ok (some v) =>
            bindLoop cmd_args rest index args (kwargs ++ [(p.name, v)]) num_kwargs has_pos num_pos_args
          | .ok none =>
            match p.default with
            | some d =>
              bindLoop cmd_args rest index args (kwargs ++ [(p.name, d)]) num_kwargs has_pos num_pos_args
            | none => .ok (.forced args kwargs)
        | .varPositional =>
          -- has_pos = True; consume cmd_args[index - 1:-num_kwargs]
          match consumeVar p.anno (pySliceNeg cmd_args (index - 1).toNat num_kwargs) args 0 with
          | .error e => .error e
          | .ok (args2, cnt) =>
            let npos2 := num_pos_args + cnt
            -- `index += (num_pos_args - 1) if num_pos_args else 0`
            let index2 := index + (if npos2 ≠ 0 then npos2 - 1 else 0)
            bindLoop cmd_args rest index2 args2 kwargs num_kwargs true npos2
      else
        -- no argument was passed for this parameter
        match p.default with
        | some d =>
          match p.kind with
          | .positionalOrKeyword =>
            bindLoop cmd_args rest index (args ++ [d]) kwargs num_kwargs has_pos num_pos_args
          | .keywordOnly =>
            bindLoop cmd_args rest index args (kwargs ++ [(p.name, d)]) num_kwargs has_pos num_pos_args
          | .varPositional =>
            -- unreachable for real Python signatures (no defaults on *args);
            -- the source would fall through both kind checks and `continue`
            bindLoop cmd_args rest index args kwargs num_kwargs has_pos num_pos_args
        | none =>
          -- `index -= 1` then `break`
          .ok (.done args kwargs (index - 1) has_pos num_pos_args)

-- bot.py parse_command_args (lines 96-178).  The start_index argument is
-- only forwarded to the Annotate enum branches of parse_annotation (absent
-- here); it is kept for signature fidelity.
def parse_command_args (params : List Param) (cmd_args : List String)
    (_start_index : Int) : Except String (List String × List (String × String) × Bool) :=
  let num_kwargs : Nat := params.countP (fun p => p.kind = ParamKind.keywordOnly)
  match bindLoop cmd_args params (-1) [] [] num_kwargs false 0 with
  | .error e => .error e
  | .ok (.forced args kwargs) => .ok (args, kwargs, false)
  | .ok (.done args kwargs index has_pos num_pos_args) =>
    -- num_args = len(signature.parameters.items()) - 2, minus one when a
    -- variadic parameter captured nothing
    let num_args : Int :=
      (params.length : Int) - 2 - (if has_pos ∧ num_pos_args = 0 then 1 else 0)
    let num_given : Int := index - 1
    .ok (args, kwargs, decide (num_given = num_args))

-- Whether a binder outcome is a completed Invocation.
def isComplete : Except String (List String × List (String × String) × Bool) → Bool
  | .ok (_, _, b) => b
  | .error _ => false

-- The two fixed infrastructure parameters every handler declares first.
def infraParams : List Param :=
  [⟨"client", .positionalOrKeyword, .clientAnno, none⟩,
   ⟨"message", .positionalOrKeyword, .messageAnno, none⟩]

-- A required positional parameter (no default) built from a name and an
-- annotation, as declared by a handler such as `def f(client, message, x: g)`.
def mkReq (x : String × PAnno) : Param :=
  ⟨x.1, .positionalOrKeyword, x.2, none⟩

-- Signature of a handler with exactly the infrastructure parameters followed
-- by required positional parameters.
def mkReqSig (ps : List (String × PAnno)) : List Param :=
  infraParams ++ ps.map mkReq

-- Whether an annotation yields a value (not None, no exception) for a token.
def annoYields (a : PAnno) (t : String) : Bool :=
  match parseAnno a t with
  | .ok (some _) => true
  | _ => false

-- ------------------------------------------------------------------
-- Command registry (plugins/__init__.py) and dispatcher (bot.py)
-- ------------------------------------------------------------------

-- The Command namedtuple (plugins/__init__.py line 13), restricted to the
-- fields the verified operations read.  `params` stands for the `function`
-- field: the binder only ever reads inspect.signature(function).parameters,
-- so the handler is represented by its signature.  The `parent` back-reference
-- and the (never consulted by the binder) `pos_check` field are omitted.
inductive Cmd where
  | mk (name : String) (usage : Option String) (description : String)
      (params : List Param) (sub_commands : List Cmd)
      (hidden : Bool) (error : Option String)

def Cmd.name : Cmd → String
  | .mk n _ _ _ _ _ _ => n

def Cmd.usage : Cmd → Option String
  | .mk _ u _ _ _ _ _ => u

def Cmd.description : Cmd → String
  | .mk _ _ d _ _ _ _ => d

def Cmd.params : Cmd → List Param
  | .mk _ _ _ p _ _ _ => p

def Cmd.sub_commands : Cmd → List Cmd
  | .mk _ _ _ _ s _ _ => s

def Cmd.hidden : Cmd → Bool
  | .mk _ _ _ _ _ h _ => h

def Cmd.error : Cmd → Option String
  | .mk _ _ _ _ _ _ e => e

-- bot.py get_sub_command (lines 181-195).  The source computes the sibling
-- name list and indexes sub_commands with names.index(arg); selecting the
-- first sub-command whose name equals the token is the same operation.
def getSubLoop (command : Cmd) (new_index : Nat) : List String → Cmd × Nat
  | [] => (command, new_index)
  | arg :: rest =>
    match command.sub_commands.find? (fun c => c.name = arg) with
    | some sub => getSubLoop sub (new_index + 1) rest
    | none => getSubLoop command new_index rest

def get_sub_command (command : Cmd) (cmd_args : List String) :
    Cmd × List String × Nat :=
  let r := getSubLoop command 0 (cmd_args.drop 1)   -- `for arg in cmd_args[1:]`
  (r.1, cmd_args.drop r.2, r.2)                      -- `cmd_args[new_index:]`

-- bot.py parse_command (lines 198-217).  The incomplete branch awaits an
-- outbound send (the command's fixed error text or the builtin help); that
-- I/O is not a scheduled task and is not represented.  `none` in the first
-- component is `command = None`.
def parse_command (command : Cmd) (cmd_args : List String) :
    Except String (Option Cmd × List String × List (String × String)) :=
  let r := get_sub_command command cmd_args
  match parse_command_args r.1.params r.2.1 (r.2.2 : Int) with
  | .error e => .error e
  | .ok (args, kwargs, complete) =>
    if complete then .ok (some r.1, args, kwargs)
    else .ok (none, args, kwargs)

-- An inbound message as the dispatcher reads it: author identity and raw text.
structure DMessage where
  author : String
  content : String

-- A loaded plugin module as the dispatcher reads it: its __commands list and
-- whether it defines an on_message hook.
structure DPlugin where
  name : String
  commands : List Cmd
  hasOnMessage : Bool

/-- Modelled from the spec: `lookup(plugin, name)` "returns the top-level
Command with that name or nothing".  The implementation, pcbot/utils
.get_command, is not among the sources. -/
def get_command (plugin : DPlugin) (name : String) : Option Cmd :=
  plugin.commands.find? (fun c => c.name = name)

/-- Modelled from the spec: the command prefix is configuration "supplied at
process start" by the bootstrap collaborator (pcbot/utils.command_prefix is
not among the sources); the spec's scenarios write it as `!`. -/
def cmdPrefixStr : String := "!"

-- bot.py log_message (lines 47-49): "{prefix}@{0.author} -> {0.content}".
def log_message (message : DMessage) (pre : String) : String :=
  pre ++ "@" ++ message.author ++ " -> " ++ message.content

-- bot.py on_plugin_message (lines 52-59): run the hook; when its result is
-- truthy, log the message with the "... " prefix.  The hook itself is plugin
-- code; only its boolean outcome matters here.  Returns the log lines emitted.
def on_plugin_message (success : Bool) (message : DMessage) : List String :=
  if success then [log_message message "... "] else []

-- A task handed to client.loop.create_task by the dispatcher.
inductive DTask where
  | commandTask (cmdName : String) (args : List String) (kwargs : List (String × String))
  | hookTask (pluginName : String) (cmd_args : List String)
deriving DecidableEq

-- The body of on_message's `for plugin in plugins.all_values()` loop for one
-- plugin: the command branch (when the message named a command) followed by
-- the unconditional on_message-hook scheduling.
def dispatchPlugin (cmd : String) (cmd_args : List String) (plugin : DPlugin) :
    Except String (List DTask) :=
  let hookTasks := if plugin.hasOnMessage then [DTask.hookTask plugin.name cmd_args] else []
  if cmd ≠ "" then
    match get_command plugin cmd with
    | some command =>
      match parse_command command cmd_args with
      | .error e => .error e
      | .ok (some c, args, kwargs) => .ok ([DTask.commandTask c.name args kwargs] ++ hookTasks)
      | .ok (none, _, _) => .ok hookTasks
    | none => .ok hookTasks
  else .ok hookTasks

def dispatchPlugins (cmd : String) (cmd_args : List String) :
    List DPlugin → Except String (List DTask)
  | [] => .ok []
  | p :: ps =>
    match dispatchPlugin cmd cmd_args p with
    | .error e => .error e
    | .ok ts =>
      match dispatchPlugins cmd cmd_args ps with
      | .error e => .error e
      | .ok ts2 => .ok (ts ++ ts2)

-- bot.py on_message (lines 237-278), as the list of tasks it hands to
-- client.loop.create_task.  `split` stands for pcbot/utils.split (the
-- quote-aware tokenizer, not among the sources).  A raised exception inside
-- the loop is `Except.error` (in Python, tasks already created stay
-- scheduled; no theorem below depends on the tasks preceding an exception).
def on_message (split : String → List String) (clientUser : String)
    (pluginsList : List DPlugin) (message : DMessage) :
    Except String (List DTask) :=
  if message.author = clientUser then .ok []            -- `if message.author == client.user: return`
  else if message.content = "" then .ok []              -- `if not message.content: return`
  else
    let cmd_args := split message.content
    match cmd_args with
    | [] => .error "IndexError"                         -- cmd_args[0] on an empty list
    | first :: _ =>
      let cmd := if pyStartsWith first cmdPrefixStr ∧ first.length > 1
                 then pyDrop first 1                    -- `cmd = cmd_args[0][1:]`
                 else ""
      dispatchPlugins cmd cmd_args pluginsList

-- ------------------------------------------------------------------
-- Plugin manager (plugins/__init__.py)
-- ------------------------------------------------------------------

-- The docstring reformatting of the `command` decorator
-- (plugins/__init__.py lines 70-81): build new_desc line by line.
def formatDocstring (description : String) : String :=
  (pySplitChar description '\n').foldl
    (fun new_desc line =>
      if pyEndsWith line "  /" then new_desc ++ pyStrip (pyDropRight line 1) ++ "\n"
      else if pyStrip line = "" then new_desc ++ "\n\n"
      else new_desc ++ pyStrip line ++ " ")
    ""

-- `options.get("description") or func.__doc__ or "Undocumented."`:
-- Python `or` takes the first truthy operand; None and "" are falsy.
def initialDescription (explicitDesc : Option String) (doc : Option String) : String :=
  match explicitDesc with
  | some d => if d ≠ "" then d else
      match doc with
      | some s => if s ≠ "" then s else "Undocumented."
      | none => "Undocumented."
  | none =>
      match doc with
      | some s => if s ≠ "" then s else "Undocumented."
      | none => "Undocumented."

-- The description actually stored on the Command: the reformatting runs
-- exactly when `description == func.__doc__` (line 70); when the docstring is
-- None that comparison is False in Python.
def derivedDescription (explicitDesc : Option String) (doc : Option String) : String :=
  let description := initialDescription explicitDesc doc
  match doc with
  | some s => if description = s then formatDocstring description else description
  | none => description

-- The `command(**options)` decorator applied to a handler
-- (plugins/__init__.py lines 49-117), acting on one plugin module's
-- __commands list.  The handler is its name, docstring and signature.
-- Python mutates `parent.sub_commands` in place; the model returns the
-- updated parent explicitly (the module's top-level list is returned
-- unchanged in that case, exactly as in the source, which only appends the
-- new command to the parent).  `Except.error` is the raised Exception.
def register_command (commands : List Cmd) (parent : Option Cmd)
    (nameOpt : Option String) (usageOpt : Option String)
    (descOpt : Option String) (hidden : Bool) (errOpt : Option String)
    (funcName : String) (funcDoc : Option String) (funcParams : List Param) :
    Except String (List Cmd × Option Cmd) :=
  let name := nameOpt.getD funcName                    -- options.get("name", func.__name__)
  let usage : Option String :=
    match parent with
    | none => some (cmdPrefixStr ++ name ++ " " ++ (usageOpt.getD ""))
    | some _ => none
  let description := derivedDescription descOpt funcDoc
  -- Assert that there are no commands already defined with the given name
  if commands.any (fun cmd => cmd.name = name) then
    .error "You can't assign two commands with the same name"
  else
    let cmd := Cmd.mk name usage description funcParams [] hidden errOpt
    match parent with
    | some p =>
      -- parent.sub_commands.append(cmd)
      .ok (commands, some (Cmd.mk p.name p.usage p.description p.params
                             (p.sub_commands ++ [cmd]) p.hidden p.error))
    | none =>
      -- commands.append(cmd)
      .ok (commands ++ [cmd], none)

-- Result of importlib.import_module for a plugin unit.  importlib is an
-- external collaborator: a missing unit raises ImportError; a malformed unit
-- raises another exception (e.g. SyntaxError), which is not an ImportError.
inductive ImportResult where
  | imported (p : DPlugin)
  | importErr (msg : String)   -- ImportError / ModuleNotFoundError
  | otherErr (msg : String)    -- any non-ImportError exception

-- The module-level `plugins` dict, keyed by plugin name.
abbrev PluginsDict := List (String × DPlugin)

-- `plugins[name] = plugin`: Python dict assignment (replace an existing key
-- in place, otherwise append).
def dictSet (d : PluginsDict) (name : String) (p : DPlugin) : PluginsDict :=
  if d.any (fun kv => kv.1 = name) then
    d.map (fun kv => if kv.1 = name then (name, p) else kv)
  else d ++ [(name, p)]

-- plugins/__init__.py load_plugin (lines 122-138).  Returns the new dict,
-- the boolean result and the warning log lines; `Except.error` is an
-- exception propagating to the caller.
def load_plugin (importer : String → ImportResult) (plugins : PluginsDict)
    (name : String) (pkg : String) :
    Except String (PluginsDict × Bool × List String) :=
  if ¬ (pyStartsWith name "__") ∨ ¬ (pyEndsWith name "__") then
    match importer (pkg ++ "." ++ name) with
    | .importErr e =>
      -- `except ImportError`: log and return False
      .ok (plugins, false, ["COULD NOT LOAD PLUGIN " ++ name ++ "\n" ++ e])
    | .otherErr e => .error e      -- only ImportError is caught
    | .imported p => .ok (dictSet plugins name p, true, [])
  else .ok (plugins, false, [])

-- plugins/__init__.py unload_plugin (lines 150-154).  Returns the new dict
-- and the debug log lines; this function has no raising path.
def unload_plugin (plugins : PluginsDict) (name : String) :
    PluginsDict × List String :=
  if plugins.any (fun kv => kv.1 = name) then
    (plugins.filter (fun kv => ¬ kv.1 = name), ["UNLOADED PLUGIN " ++ name])
  else (plugins, [])

-- ------------------------------------------------------------------
-- Spec-side definitions used by refinement-style claims
-- ------------------------------------------------------------------

/-- The reformatting rule exactly as the specification words it, per line: "a
line ending with the explicit continuation marker keeps a forced line break
(the marker itself removed), a blank line becomes a paragraph break, and every
other line is joined to the next with a single space". -/
def specReformatLine (line : String) : String :=
  if pyEndsWith line "  /" then pyStrip (pyDropRight line 1) ++ "\n"
  else if pyStrip line = "" then "\n\n"
  else pyStrip line ++ " "

/-- The whole-docstring reformatting as the specification describes it: the
concatenation, line by line, of the reformatted lines. -/
def specReformat (doc : String) : String :=
  ((pySplitChar doc '\n').map specReformatLine).foldr (· ++ ·) ""

-- ------------------------------------------------------------------
-- Claim theorems
-- ------------------------------------------------------------------

-- Signature of a handler `def f(client, message, *args)`: a variadic capture
-- parameter and no keyword-only parameters after it.
def varOnlySig : List Param :=
  infraParams ++ [⟨"args", .varPositional, .noAnno, none⟩]

/-- C1: the claim says that with tokens remaining, a VariadicCapture parameter
consumes all remaining tokens minus those reserved for following keyword-only
parameters — in particular all of them when no keyword-only parameter follows.
The code computes the tokens to consume as `cmd_args[index - 1:-num_kwargs]`;
with `num_kwargs == 0` that Python slice is `cmd_args[index - 1:0]`, which is
empty, so nothing at all is consumed: on `def f(client, message, *args)` with
two remaining tokens the bound positional list is `[]`, not `["a", "b"]`.
This theorem evaluates the embedded binder at that failing input. -/
theorem c1_variadic_slice_eval :
    parse_command_args varOnlySig ["!cmd", "a", "b"] 0 = .ok ([], [], false) := by
  rfl

/-- C2: the claim (spec §8) says a command with a VariadicCapture parameter
and zero required fixed parameters binds `complete` for any number of extra
tokens, including zero.  On `def f(client, message, *args)` the code marks the
Invocation incomplete both for zero extra tokens (the loop `break`s before
`has_pos` is ever set, so `num_args` stays 1 while `num_given` is 0) and for
one extra token (the `-0` slice captures nothing, so `num_args` becomes 0
while `num_given` is 1).  This theorem evaluates the binder at both inputs. -/
theorem c2_variadic_complete_eval :
    parse_command_args varOnlySig ["!cmd"] 0 = .ok ([], [], false) ∧
    parse_command_args varOnlySig ["!cmd", "a"] 0 = .ok ([], [], false) := by
  exact ⟨rfl, rfl⟩

/-- C3 counterexample: for a handler with exactly one required positional
parameter — annotated with a coercion that returns its token, as `str` does
(`def f(client, message, p: str)`) — the claim says binding is complete iff
exactly one token follows the command name.  With two tokens following, the
binder still marks the Invocation complete (extra trailing tokens are
ignored), refuting the "exactly N" direction of the claim. -/
theorem c3_counterexample :
    parse_command_args (mkReqSig [("p", PAnno.custom (fun s => .ret (some s)))])
        ["!cmd", "a", "b"] 0
      = .ok (["a"], [], true) ∧ ["a", "b"].length ≠ 1 := by
  exact ⟨rfl, by decide⟩

/-- C4 counterexample: the claim says any exception raised by a coercion
function — including a deliberate wrong-type signal — yields "no value".  A
coercion function that raises TypeError is re-raised by parse_annotation's
`except TypeError` branch instead of being treated as "no value". -/
theorem c4_counterexample :
    parseAnno (.custom (fun _ => .raiseTypeError)) "x" = .error annoTypeErrMsg ∧
    parseAnno (.custom (fun _ => .raiseTypeError)) "x" ≠ .ok none := by
  exact ⟨rfl, fun h => nomatch h⟩

/-- C7 counterexample: the claim says load returns a failure result for every
load unit that fails to resolve, missing or malformed, without raising to the
caller.  load_plugin catches only ImportError; a malformed unit whose import
raises a non-ImportError exception (a SyntaxError, say) propagates that
exception to the caller instead of returning False. -/
theorem c7_counterexample :
    load_plugin (fun _ => .otherErr "SyntaxError: invalid syntax") [] "broken" "plugins"
      = .error "SyntaxError: invalid syntax" := by
  rfl

/-- C7 amended: when the import of a (non-reserved-named) plugin unit raises
ImportError — the missing-module case — load_plugin returns False to the
caller, logs the underlying cause, raises nothing, and leaves the loaded-set
dictionary unchanged, so the plugin is absent from it afterwards. -/
theorem c7_load_missing (importer : String → ImportResult) (plugins : PluginsDict)
    (name pkg e : String)
    (hname : ¬ (pyStartsWith name "__" = true) ∨ ¬ (pyEndsWith name "__" = true))
    (himp : importer (pkg ++ "." ++ name) = .importErr e) :
    load_plugin importer plugins name pkg
      = .ok (plugins, false, ["COULD NOT LOAD PLUGIN " ++ name ++ "\n" ++ e]) := by
  unfold load_plugin
  rw [if_pos hname, himp]

/-- Witness for c7_load_missing at a concrete importer and name. -/
theorem c7_load_missing_witness :
    load_plugin (fun _ => .importErr "No module named plugins.math") [] "math" "plugins"
      = .ok ([], false, ["COULD NOT LOAD PLUGIN " ++ "math" ++ "\n" ++ "No module named plugins.math"]) := by
  exact c7_load_missing _ [] "math" "plugins" _ (by decide) rfl

/-- C8: calling unload_plugin with a name that is not a key of the loaded
plugin dictionary is a no-op: it raises nothing (the embedded function is
total, mirroring the source's single guarded branch), emits no log line and
returns the dictionary unchanged. -/
theorem c8_unload_noop (plugins : PluginsDict) (name : String)
    (h : ∀ kv ∈ plugins, kv.1 ≠ name) :
    unload_plugin plugins name = (plugins, []) := by
  have hfalse : (plugins.any (fun kv => kv.1 = name)) = false := by
    rw [List.any_eq_false]
    intro kv hkv
    simpa using h kv hkv
  unfold unload_plugin
  simp [hfalse]

/-- Witness for c8_unload_noop on a one-entry dictionary and an absent name. -/
theorem c8_unload_noop_witness :
    unload_plugin [("builtin", ⟨"builtin", [], false⟩)] "wordsearch"
      = ([("builtin", ⟨"builtin", [], false⟩)], []) := by
  exact c8_unload_noop _ "wordsearch" (by simp)

-- A registry fragment for the sub-command walk scenario: the builtin `plugin`
-- command with its `reload` sub-command.
def c10Reload : Cmd := Cmd.mk "reload" none "Reloads a plugin. " [] [] false none

def c10Plugin : Cmd :=
  Cmd.mk "plugin" (some "!plugin [reload | load | unload] [plugin]")
    "Manage plugins. " [] [c10Reload] false none

/-- C10: get_sub_command scans every token after the first and descends on any
token naming a sub-command, even past non-matching tokens; the tokens handed
to binding are always dropped from the FRONT of the token list, one per
descent, not the matched tokens themselves.  First conjunct: the returned
token list is always the input with `new_index` front tokens removed.  Second
conjunct: on `!plugin math reload` the walk skips `math`, descends at
`reload`, and returns the `reload` command with the tokens still starting at
`math`. -/
theorem c10_subcommand_resolution :
    (∀ (command : Cmd) (cmd_args : List String),
        (get_sub_command command cmd_args).2.1
          = cmd_args.drop (get_sub_command command cmd_args).2.2) ∧
    get_sub_command c10Plugin ["!plugin", "math", "reload"]
      = (c10Reload, ["math", "reload"], 1) := by
  exact ⟨fun _ _ => rfl, rfl⟩

-- Registration scenario commands for the duplicate-name claim: a parent with
-- no sub-commands, then with one and two sub-commands named "x".
def c5Sub : Cmd := Cmd.mk "x" none "Undocumented." [] [] false none

def c5Parent0 : Cmd := Cmd.mk "plugin" (some "!plugin ") "Manage plugins. " [] [] false none

def c5Parent1 : Cmd :=
  Cmd.mk "plugin" (some "!plugin ") "Manage plugins. " [] [c5Sub] false none

def c5Parent2 : Cmd :=
  Cmd.mk "plugin" (some "!plugin ") "Manage plugins. " [] [c5Sub, c5Sub] false none

/-- C5 counterexample: the claim says the second registration of a command
with a name already used by a sibling fails, "including two sub-commands of
the same parent command".  The decorator's duplicate check inspects only the
plugin module's top-level command list, so registering the sub-command `x`
under the same parent twice raises nothing: both registrations return
successfully and the parent ends up with two sub-commands named `x`. -/
theorem c5_counterexample :
    register_command [] (some c5Parent0) (some "x") none none false none "f" none []
      = .ok ([], some c5Parent1) ∧
    register_command [] (some c5Parent1) (some "x") none none false none "f" none []
      = .ok ([], some c5Parent2) := by
  exact ⟨rfl, rfl⟩

/-- C5 amended: the duplicate check runs against the plugin module's top-level
command list only.  (a) A registration whose name collides with an existing
top-level command of the module raises the duplicate-name exception; the
raise happens before any list mutation in the source, and here no updated
state is produced, so the first registration is intact.  (b) A sub-command
registration succeeds whenever no top-level command bears the name — however
many sub-commands of the same parent already bear it — appending one new
sub-command to the parent and leaving the top-level list unchanged. -/
theorem c5_duplicate_check_amended :
    (∀ (commands : List Cmd) (parent : Option Cmd) (name : String)
        (usageOpt descOpt : Option String) (hidden : Bool) (errOpt : Option String)
        (fn : String) (fd : Option String) (fp : List Param),
        (commands.any (fun c => c.name = name)) = true →
        register_command commands parent (some name) usageOpt descOpt hidden errOpt fn fd fp
          = .error "You can't assign two commands with the same name") ∧
    (∀ (commands : List Cmd) (p : Cmd) (name : String)
        (usageOpt descOpt : Option String) (hidden : Bool) (errOpt : Option String)
        (fn : String) (fd : Option String) (fp : List Param),
        (commands.any (fun c => c.name = name)) = false →
        ∃ c', register_command commands (some p) (some name) usageOpt descOpt hidden errOpt fn fd fp
            = .ok (commands, some c')
          ∧ c'.sub_commands.length = p.sub_commands.length + 1) := by
  constructor
  · intro commands parent name u d hd e fn fd fp h
    simp [register_command, h]
  · intro commands p name u d hd e fn fd fp h
    refine ⟨Cmd.mk p.name p.usage p.description p.params
        (p.sub_commands ++ [Cmd.mk name none (derivedDescription d fd) fp [] hd e])
        p.hidden p.error, ?_, ?_⟩
    · simp [register_command, h]
    · simp [Cmd.sub_commands]

/-- Witness for c5_duplicate_check_amended: a top-level collision with the
one-command list `[c5Sub]` raises; a sub-command registration under
c5Parent1 (which already owns a sub-command `x`) succeeds and grows the
parent's sub-command list by one. -/
theorem c5_duplicate_check_amended_witness :
    register_command [c5Sub] none (some "x") none none false none "f" none []
      = .error "You can't assign two commands with the same name" ∧
    ∃ c', register_command [] (some c5Parent1) (some "x") none none false none "f" none []
        = .ok ([], some c')
      ∧ c'.sub_commands.length = c5Parent1.sub_commands.length + 1 := by
  exact ⟨c5_duplicate_check_amended.1 [c5Sub] none "x" none none false none "f" none [] (by rfl),
         c5_duplicate_check_amended.2 [] c5Parent1 "x" none none false none "f" none [] (by rfl)⟩

-- The accumulator-threaded reformatting loop of the decorator equals the
-- specification's per-line concatenation.
theorem formatDocstring_foldl (ls : List String) :
    ∀ acc : String,
      ls.foldl (fun new_desc line => new_desc ++ specReformatLine line) acc
        = acc ++ (ls.map specReformatLine).foldr (· ++ ·) "" := by
  induction ls with
  | nil => intro acc; exact (String.append_empty acc).symm
  | cons l ls ih =>
    intro acc
    rw [List.foldl_cons, ih (acc ++ specReformatLine l), List.map_cons,
      List.foldr_cons, String.append_assoc]

theorem formatDocstring_eq_specReformat (doc : String) :
    formatDocstring doc = specReformat doc := by
  unfold formatDocstring specReformat
  have hbody : (fun (new_desc line : String) =>
      if pyEndsWith line "  /" then new_desc ++ pyStrip (pyDropRight line 1) ++ "\n"
      else if pyStrip line = "" then new_desc ++ "\n\n"
      else new_desc ++ pyStrip line ++ " ")
      = (fun new_desc line => new_desc ++ specReformatLine line) := by
    funext new_desc line
    unfold specReformatLine
    by_cases h1 : pyEndsWith line "  /" = true
    · rw [if_pos h1, if_pos h1, String.append_assoc]
    · rw [if_neg h1, if_neg h1]
      by_cases h2 : pyStrip line = ""
      · rw [if_pos h2, if_pos h2]
      · rw [if_neg h2, if_neg h2, String.append_assoc]
  rw [hbody, formatDocstring_foldl, String.empty_append]

/-- C9: a command registered with no explicit description and a handler whose
documentation text is a nonempty string `s` stores, as its description, the
line-by-line reformatting of `s` that the specification describes: a line
ending in the continuation marker `  /` keeps a forced line break with the
marker removed, a blank line becomes a paragraph break, every other line is
stripped and joined to the next with a single space. -/
theorem c9_description_reformat (commands : List Cmd) (nameOpt usageOpt : Option String)
    (hidden : Bool) (errOpt : Option String) (fn s : String) (fp : List Param)
    (hs : s ≠ "")
    (hdup : (commands.any (fun c => c.name = nameOpt.getD fn)) = false) :
    register_command commands none nameOpt usageOpt none hidden errOpt fn (some s) fp
      = .ok (commands ++ [Cmd.mk (nameOpt.getD fn)
               (some (cmdPrefixStr ++ nameOpt.getD fn ++ " " ++ usageOpt.getD ""))
               (specReformat s) fp [] hidden errOpt], none) := by
  have hdesc : derivedDescription none (some s) = specReformat s := by
    rw [← formatDocstring_eq_specReformat]
    simp [derivedDescription, initialDescription, hs]
  simp [register_command, hdup, hdesc]

/-- Witness for c9_description_reformat: registering the handler `roll` whose
docstring mixes a marker line, a blank line and plain lines. -/
theorem c9_description_reformat_witness :
    register_command [] none (some "roll") none none false none "f"
        (some "Roll a die.  /\n\nUses one die  \n by default.") []
      = .ok ([] ++ [Cmd.mk "roll" (some (cmdPrefixStr ++ "roll" ++ " " ++ ""))
               (specReformat "Roll a die.  /\n\nUses one die  \n by default.") [] [] false none], none) := by
  exact c9_description_reformat [] (some "roll") none false none "f"
    "Roll a die.  /\n\nUses one die  \n by default." [] (by decide) (by rfl)

/-- C4 amended: a coercion-function annotation that raises any exception OTHER
than TypeError yields "no value" (TypeError is re-raised as the
annotation-misuse error, see the counterexample); the "no value" outcome then
binds the parameter's default when one exists, and otherwise force-quits the
bind with an incomplete Invocation. -/
theorem c4_coercion_amended :
    (∀ (f : String → PyCallResult) (arg : String),
        f arg = .raiseOther → parseAnno (.custom f) arg = .ok none) ∧
    (∀ (f : String → PyCallResult) (tok d : String),
        f tok = .raiseOther →
        parse_command_args (infraParams ++ [⟨"p", .positionalOrKeyword, .custom f, some d⟩])
            ["!c", tok] 0 = .ok ([d], [], true)) ∧
    (∀ (f : String → PyCallResult) (tok : String),
        f tok = .raiseOther →
        parse_command_args (infraParams ++ [⟨"p", .positionalOrKeyword, .custom f, none⟩])
            ["!c", tok] 0 = .ok ([], [], false)) := by
  refine ⟨?_, ?_, ?_⟩
  · intro f arg h
    simp [parseAnno, h]
  · intro f tok d h
    have hp : parseAnno (PAnno.custom f) tok = .ok none := by simp [parseAnno, h]
    simp [parse_command_args, bindLoop, infraParams, hp]
  · intro f tok h
    have hp : parseAnno (PAnno.custom f) tok = .ok none := by simp [parseAnno, h]
    simp [parse_command_args, bindLoop, infraParams, hp]

/-- Witness for c4_coercion_amended at the coercion `int` applied to a
non-numeric token (raises ValueError, a non-TypeError exception). -/
theorem c4_coercion_amended_witness :
    parseAnno (.custom (fun _ => .raiseOther)) "abc" = .ok none ∧
    parse_command_args (infraParams ++ [⟨"p", .positionalOrKeyword,
        .custom (fun _ => .raiseOther), some "0"⟩]) ["!c", "abc"] 0 = .ok (["0"], [], true) ∧
    parse_command_args (infraParams ++ [⟨"p", .positionalOrKeyword,
        .custom (fun _ => .raiseOther), none⟩]) ["!c", "abc"] 0 = .ok ([], [], false) := by
  exact ⟨c4_coercion_amended.1 _ "abc" rfl,
         c4_coercion_amended.2.1 _ "abc" "0" rfl,
         c4_coercion_amended.2.2 _ "abc" rfl⟩

-- Whenever the per-plugin dispatch step returns normally, the scheduled task
-- list contains the plugin's generic-message hook task (with the tokenized
-- arguments) provided the plugin exposes the hook.
theorem dispatchPlugin_hook (cmd : String) (cmd_args : List String) (p : DPlugin)
    (ts : List DTask) (h : dispatchPlugin cmd cmd_args p = .ok ts)
    (hm : p.hasOnMessage = true) :
    DTask.hookTask p.name cmd_args ∈ ts := by
  unfold dispatchPlugin at h
  rw [hm] at h
  simp only [if_true] at h
  split at h
  all_goals try split at h
  all_goals try split at h
  all_goals injection h
  all_goals subst ts
  all_goals simp

-- The dispatcher's plugin loop schedules the hook task of every hooked
-- plugin whenever it returns normally.
theorem dispatchPlugins_hook (cmd : String) (cmd_args : List String) :
    ∀ (ps : List DPlugin) (ts : List DTask),
      dispatchPlugins cmd cmd_args ps = .ok ts →
      ∀ p ∈ ps, p.hasOnMessage = true → DTask.hookTask p.name cmd_args ∈ ts := by
  intro ps
  induction ps with
  | nil =>
    intro ts _ p hp
    exact absurd hp (List.not_mem_nil p)
  | cons q qs ih =>
    intro ts h p hp hm
    unfold dispatchPlugins at h
    cases h1 : dispatchPlugin cmd cmd_args q with
    | error e => rw [h1] at h; cases h
    | ok ts1 =>
      rw [h1] at h
      cases h2 : dispatchPlugins cmd cmd_args qs with
      | error e => rw [h2] at h; cases h
      | ok ts2 =>
        rw [h2] at h
        injection h with h
        subst h
        rcases List.mem_cons.mp hp with rfl | hmem
        · exact List.mem_append_left _ (dispatchPlugin_hook cmd cmd_args p ts1 h1 hm)
        · exact List.mem_append_right _ (ih ts2 h2 p hmem hm)

/-- C6 counterexample: the claim quantifies over every inbound message, but
the dispatcher returns before scheduling anything when the message content is
empty (and likewise for the bot's own messages): here a plugin exposes the
generic-message hook, yet for an inbound empty-content message no task at all
is scheduled. -/
theorem c6_counterexample :
    on_message (fun s => [s]) "bot" [⟨"p", [], true⟩] ⟨"u", ""⟩ = .ok [] ∧
    (⟨"p", [], true⟩ : DPlugin).hasOnMessage = true := by
  exact ⟨rfl, rfl⟩

/-- C6 amended: for every inbound message that is not authored by the bot
itself and has nonempty content, and whenever dispatch returns without a
propagated exception, every loaded plugin that exposes a generic-message hook
has that hook scheduled as a task carrying the tokenized arguments,
regardless of whether the message matched a command; and the hook-runner
wrapper logs the message exactly when the hook's result is truthy. -/
theorem c6_hook_scheduling_amended :
    (∀ (split : String → List String) (clientUser : String)
        (pluginsList : List DPlugin) (message : DMessage) (ts : List DTask),
        message.author ≠ clientUser →
        message.content ≠ "" →
        on_message split clientUser pluginsList message = .ok ts →
        ∀ p ∈ pluginsList, p.hasOnMessage = true →
          DTask.hookTask p.name (split message.content) ∈ ts) ∧
    (∀ message : DMessage, on_plugin_message true message = [log_message message "... "]) ∧
    (∀ message : DMessage, on_plugin_message false message = []) := by
  refine ⟨?_, fun _ => rfl, fun _ => rfl⟩
  intro split clientUser pluginsList message ts hauthor hcontent h p hp hm
  unfold on_message at h
  rw [if_neg hauthor, if_neg hcontent] at h
  cases hsplit : split message.content with
  | nil => rw [hsplit] at h; simp at h
  | cons first rest =>
    rw [hsplit] at h
    exact dispatchPlugins_hook _ (first :: rest) pluginsList ts h p hp hm

/-- Witness for c6_hook_scheduling_amended: a non-command message "hi" from
user "u" with one hook-exposing plugin loaded schedules exactly that hook. -/
theorem c6_hook_scheduling_amended_witness :
    DTask.hookTask "p" ((fun (s : String) => [s]) "hi")
      ∈ [DTask.hookTask "p" ["hi"]] := by
  exact c6_hook_scheduling_amended.1 (fun s => [s]) "bot" [⟨"p", [], true⟩] ⟨"u", "hi"⟩
    [DTask.hookTask "p" ["hi"]] (by decide) (by decide) rfl ⟨"p", [], true⟩ (by simp) rfl

-- ------------------------------------------------------------------
-- Completeness characterization for fixed-arity commands (claim C3)
-- ------------------------------------------------------------------

-- The binder loop specialised to required positional parameters: what
-- bindLoop computes on a signature of POSITIONAL_OR_KEYWORD parameters with
-- no defaults, expressed directly over the parameter/token structure.  The
-- Nat argument j is the Python `index` value at the head parameter.
def reqLoopSpec (toks : List String) :
    List (String × PAnno) → Nat → List String → List (String × String) →
      Except String LoopOut
  | [], j, args, kwargs => .ok (.done args kwargs (j : Int) false 0)
  | q :: rest, j, args, kwargs =>
    if j ≤ toks.length then
      match parseAnno q.2 (toks.getD (j - 1) "") with
      | .error e => .error e
      | .ok (some v) => reqLoopSpec toks rest (j + 1) (args ++ [v]) kwargs
      | .ok none => .ok (.forced args kwargs)
    else .ok (.done args kwargs (j : Int) false 0)

-- Whether every parameter's annotation yields a value against the tokens
-- starting at offset off.
def allYieldB : List (String × PAnno) → List String → Nat → Bool
  | [], _, _ => true
  | q :: rest, toks, off => annoYields q.2 (toks.getD off "") && allYieldB rest toks (off + 1)

-- The completeness decision parse_command_args applies to a loop outcome,
-- with numArgsBase = len(signature) - 2.
def doneComplete (base : Nat) : Except String LoopOut → Bool
  | .ok (.done _ _ idx hp np) =>
      decide (idx - 1 = (base : Int) - (if hp = true ∧ np = 0 then 1 else 0))
  | .ok (.forced _ _) => false
  | .error _ => false

-- A required-positional-only signature has no keyword-only parameters.
theorem mkReqSig_num_kwargs (ps : List (String × PAnno)) :
    (mkReqSig ps).countP (fun p => p.kind = ParamKind.keywordOnly) = 0 := by
  rw [mkReqSig, List.countP_append]
  have h1 : infraParams.countP (fun p => decide (p.kind = ParamKind.keywordOnly)) = 0 := rfl
  have h2 : (ps.map mkReq).countP (fun p => decide (p.kind = ParamKind.keywordOnly)) = 0 := by
    rw [List.countP_eq_zero]
    intro a ha
    obtain ⟨x, _, rfl⟩ := List.mem_map.mp ha
    simp [mkReq]
  rw [h1, h2]

-- On required positional parameters the binder loop computes reqLoopSpec.
theorem bindLoop_req_spec (cmdtok : String) (toks : List String) :
    ∀ (qs : List (String × PAnno)) (j : Nat) (args : List String)
      (kwargs : List (String × String)),
      bindLoop (cmdtok :: toks) (qs.map mkReq) ((j + 1 : Nat) : Int) args kwargs 0 false 0
        = reqLoopSpec toks qs (j + 1) args kwargs := by
  intro qs
  induction qs with
  | nil => intro j args kwargs; rfl
  | cons q rest ih =>
    intro j args kwargs
    have h0 : ¬(((j + 1 : Nat) : Int) + 1 = 0) := by omega
    have h1 : ¬(((j + 1 : Nat) : Int) + 1 = 1) := by omega
    rw [List.map_cons]
    simp only [bindLoop]
    rw [if_neg h0, if_neg h1]
    simp only [reqLoopSpec, Nat.add_sub_cancel]
    by_cases hle : j + 1 ≤ toks.length
    · have hle' : ((j + 1 : Nat) : Int) + 1 ≤ (((cmdtok :: toks).length : Nat) : Int) := by
        simp only [List.length_cons]
        omega
      rw [if_pos hle', if_pos hle]
      have hgd : (cmdtok :: toks).getD ((((j + 1 : Nat) : Int) + 1 - 1).toNat) ""
          = toks.getD j "" := by
        have : ((((j + 1 : Nat) : Int)) + 1 - 1).toNat = j + 1 := by omega
        rw [this, List.getD_cons_succ]
      rw [hgd]
      simp only [mkReq]
      cases hpa : parseAnno q.2 (toks.getD j "") with
      | error e => rfl
      | ok o =>
        cases o with
        | some v =>
          have : (((j + 1 : Nat) : Int) + 1) = ((j + 1 + 1 : Nat) : Int) := by omega
          rw [this]
          exact ih (j + 1) (args ++ [v]) kwargs
        | none => rfl
    · have hle' : ¬(((j + 1 : Nat) : Int) + 1 ≤ (((cmdtok :: toks).length : Nat) : Int)) := by
        simp only [List.length_cons]
        omega
      rw [if_neg hle', if_neg hle]
      simp only [mkReq]
      have : (((j + 1 : Nat) : Int) + 1) - 1 = ((j + 1 : Nat) : Int) := by omega
      rw [this]

-- parse_command_args on a required-positional signature decides completeness
-- by doneComplete over reqLoopSpec.
theorem isComplete_parse_req (ps : List (String × PAnno)) (cmdtok : String)
    (toks : List String) (si : Int) :
    isComplete (parse_command_args (mkReqSig ps) (cmdtok :: toks) si)
      = doneComplete ps.length (reqLoopSpec toks ps 1 [] []) := by
  have hloop : bindLoop (cmdtok :: toks) (mkReqSig ps) (-1) [] [] 0 false 0
      = reqLoopSpec toks ps 1 [] [] := by
    have h := bindLoop_req_spec cmdtok toks ps 0 [] []
    exact Eq.trans (by rfl) h
  have hlen : ∀ X : Int, (((mkReqSig ps).length : Nat) : Int) - 2 - X = ((ps.length : Nat) : Int) - X := by
    intro X
    have : (mkReqSig ps).length = ps.length + 2 := by
      simp only [mkReqSig, List.length_append, List.length_map, infraParams,
        List.length_cons, List.length_nil]
      omega
    rw [this]
    push_cast
    ring
  unfold parse_command_args
  simp only [mkReqSig_num_kwargs, hloop]
  cases hr : reqLoopSpec toks ps 1 [] [] with
  | error e => rfl
  | ok lo =>
    cases lo with
    | forced a k => rfl
    | done a k idx hp np =>
      simp only [isComplete, doneComplete, hlen]

-- The completeness decision over reqLoopSpec: complete exactly when enough
-- tokens remain for every parameter and every annotation yields a value.
theorem reqLoopSpec_complete (toks : List String) :
    ∀ (qs : List (String × PAnno)) (j : Nat) (args : List String)
      (kwargs : List (String × String)),
      j ≤ toks.length →
      doneComplete (j + qs.length) (reqLoopSpec toks qs (j + 1) args kwargs)
        = (decide (j + qs.length ≤ toks.length) && allYieldB qs toks j) := by
  intro qs
  induction qs with
  | nil =>
    intro j args kwargs hj
    simp only [reqLoopSpec, doneComplete, allYieldB, List.length_nil, Nat.add_zero,
      Bool.and_true]
    rw [if_neg (by simp)]
    have h1 : (((j + 1 : Nat) : Int)) - 1 = ((j : Nat) : Int) - 0 := by push_cast; ring
    rw [h1, decide_eq_true (show ((j : Nat) : Int) - 0 = ((j : Nat) : Int) - 0 from rfl),
      decide_eq_true hj]
  | cons q rest ih =>
    intro j args kwargs hj
    simp only [reqLoopSpec, Nat.add_sub_cancel, List.length_cons, allYieldB]
    by_cases hle : j + 1 ≤ toks.length
    · rw [if_pos hle]
      cases hpa : parseAnno q.2 (toks.getD j "") with
      | error e =>
        have hy : annoYields q.2 (toks.getD j "") = false := by
          unfold annoYields; rw [hpa]
        rw [hy]
        show doneComplete (j + (rest.length + 1)) (Except.error e)
            = (decide (j + (rest.length + 1) ≤ toks.length)
                && (false && allYieldB rest toks (j + 1)))
        simp [doneComplete]
      | ok o =>
        cases o with
        | some v =>
          have hy : annoYields q.2 (toks.getD j "") = true := by
            unfold annoYields; rw [hpa]
          have hbase : j + (rest.length + 1) = j + 1 + rest.length := by omega
          rw [hy]
          show doneComplete (j + (rest.length + 1))
              (reqLoopSpec toks rest (j + 1 + 1) (args ++ [v]) kwargs)
            = (decide (j + (rest.length + 1) ≤ toks.length)
                && (true && allYieldB rest toks (j + 1)))
          rw [hbase, ih (j + 1) (args ++ [v]) kwargs hle, Bool.true_and]
        | none =>
          have hy : annoYields q.2 (toks.getD j "") = false := by
            unfold annoYields; rw [hpa]
          rw [hy]
          show doneComplete (j + (rest.length + 1)) (Except.ok (LoopOut.forced args kwargs))
              = (decide (j + (rest.length + 1) ≤ toks.length)
                  && (false && allYieldB rest toks (j + 1)))
          simp [doneComplete]
    · rw [if_neg hle]
      have hL : doneComplete (j + (rest.length + 1))
          (.ok (.done args kwargs ((j + 1 : Nat) : Int) false 0)) = false := by
        simp only [doneComplete]
        rw [decide_eq_false]
        intro hcontra
        rw [if_neg (by simp)] at hcontra
        omega
      have hR : decide (j + (rest.length + 1) ≤ toks.length) = false := by
        rw [decide_eq_false]
        omega
      rw [hL, hR, Bool.false_and]

-- allYieldB unpacked to a pointwise statement about parameter positions.
theorem allYieldB_iff :
    ∀ (qs : List (String × PAnno)) (toks : List String) (off : Nat),
      allYieldB qs toks off = true ↔
        ∀ i, i < qs.length →
          annoYields (qs.getD i ("", PAnno.noAnno)).2 (toks.getD (off + i) "") = true := by
  intro qs
  induction qs with
  | nil => intro toks off; simp [allYieldB]
  | cons q rest ih =>
    intro toks off
    simp only [allYieldB, Bool.and_eq_true, List.length_cons]
    constructor
    · rintro ⟨h0, hrest⟩ i hi
      cases i with
      | zero => simpa using h0
      | succ n =>
        have hn := (ih toks (off + 1)).mp hrest n (by omega)
        have harith : off + 1 + n = off + (n + 1) := by omega
        rw [harith] at hn
        simpa using hn
    · intro hall
      refine ⟨?_, (ih toks (off + 1)).mpr ?_⟩
      · simpa using hall 0 (by omega)
      · intro n hn
        have h := hall (n + 1) (by omega)
        have harith : off + (n + 1) = off + 1 + n := by omega
        rw [harith] at h
        simpa using h

/-- C3 amended: for a handler with exactly N required positional parameters
(beyond the two infrastructure parameters, all without defaults), the binder
marks the Invocation complete iff AT LEAST N tokens follow the command-name
token and the annotation of each of the N parameters yields a value for its
token; extra trailing tokens beyond the N consumed are ignored rather than
causing failure (see the counterexample for the original "exactly N"). -/
theorem c3_completeness_amended (ps : List (String × PAnno)) (cmdtok : String)
    (toks : List String) (si : Int) :
    isComplete (parse_command_args (mkReqSig ps) (cmdtok :: toks) si) = true
      ↔ (ps.length ≤ toks.length ∧
          ∀ i, i < ps.length →
            annoYields (ps.getD i ("", PAnno.noAnno)).2 (toks.getD i "") = true) := by
  rw [isComplete_parse_req]
  have h := reqLoopSpec_complete toks ps 0 [] [] (by omega)
  simp only [Nat.zero_add] at h
  rw [h, Bool.and_eq_true, decide_eq_true_eq, allYieldB_iff]
  constructor
  · rintro ⟨h1, h2⟩
    exact ⟨h1, fun i hi => by simpa using h2 i hi⟩
  · rintro ⟨h1, h2⟩
    exact ⟨h1, fun i hi => by simpa using h2 i hi⟩

/-- Witness for c3_completeness_amended: one required parameter annotated
with a token-returning coercion (as `str` is), one token. -/
theorem c3_completeness_amended_witness :
    isComplete (parse_command_args
        (mkReqSig [("p", PAnno.custom (fun s => .ret (some s)))]) ["!cmd", "a"] 0) = true := by
  exact (c3_completeness_amended [("p", PAnno.custom (fun s => .ret (some s)))]
      "!cmd" ["a"] 0).mpr ⟨by decide, by decide⟩
